import Mathlib

/-!
Shallow embedding of the ClaudAgentPY chat gateway.

The model translates `src/App.py` and `src/claude_client.py` into pure Lean
functions.  JSON scalar values are modelled by `PyVal` (Python distinguishes
`bool` from `int` only as a subclass, which matters for `isinstance` checks),
the remote provider call is modelled by a `ProviderOutcome` parameter (the
result of `self.client.messages.create`), and exceptions that escape a handler
are modelled by the `HandlerResult.exn` constructor.

Modules of the repository that are not among the supplied sources
(`constants.py`, the final `prompts.py`, `token_counter.py`,
`history_compression.py`) are modelled from the specification; each such
definition carries a doc comment starting with `Modelled from the spec:`.
-/

namespace ClaudAgentPY

/-- One raw `conversation_history` entry as received in the JSON body: a dict
whose `role` and `content` keys may be absent (`none`).  Both fields are
modelled as optional strings, matching the spec's ChatTurn data model. -/
structure RawTurn where
  role : Option String
  content : Option String
deriving Repr, DecidableEq

/-- Python-style JSON values as handled by the request code.  `bool` is kept
distinct from `int` because Python treats `bool` as a subclass of `int`
(`isinstance(True, int)` is `True`), which is observable in
`validate_and_clamp`.  Floats are modelled as rationals (all arithmetic the
code performs on them is exact).  `list` carries conversation-history
entries, the only list-valued field the handlers read. -/
inductive PyVal where
  | none
  | bool (b : Bool)
  | int (n : Int)
  | float (q : Rat)
  | str (s : String)
  | list (ts : List RawTurn)
deriving Repr, DecidableEq

/-- Numeric value of a Python number (`True == 1`, `False == 0`).  Only ever
applied after an `isinstance` numeric check; the non-numeric default is
irrelevant to any call site. -/
def pyToRat : PyVal → Rat
  | .bool b => if b then 1 else 0
  | .int n => (n : Rat)
  | .float q => q
  | _ => 0

/-- `isinstance(value, int)`: true for `int` and also for `bool`, which is a
subclass of `int` in Python. -/
def py_is_int : PyVal → Bool
  | .int _ => true
  | .bool _ => true
  | _ => false

/-- `isinstance(value, (int, float))`: `int`, `bool` (subclass of `int`) or
`float`. -/
def py_is_number : PyVal → Bool
  | .int _ => true
  | .bool _ => true
  | .float _ => true
  | _ => false

/-- Python `min(a, b)` on numbers: returns `b` when `b < a`, else `a`
(preserving the object, hence its type). -/
def pyMin (a b : PyVal) : PyVal := if pyToRat b < pyToRat a then b else a

/-- Python `max(a, b)` on numbers: returns `b` when `b > a`, else `a`. -/
def pyMax (a b : PyVal) : PyVal := if pyToRat a < pyToRat b then b else a

/-- Python `int()` conversion of a number: truncation toward zero. -/
def ratTrunc (q : Rat) : Int := if q < 0 then -(⌊-q⌋) else ⌊q⌋

/-- `type(value)(clamped)`: convert `v` to the runtime type of `proto`
(`bool(x)` is `x != 0`, `int(x)` truncates, `float(x)` embeds). -/
def pyCast (proto v : PyVal) : PyVal :=
  match proto with
  | .bool _ => .bool (decide (pyToRat v ≠ 0))
  | .int _ => .int (ratTrunc (pyToRat v))
  | .float _ => .float (pyToRat v)
  | _ => v

/-- Whitespace stripped by Python `str.strip()` (restricted to the ASCII
whitespace that can appear in the modelled strings). -/
def is_ws (c : Char) : Bool := decide (c = ' ' ∨ c = '\t' ∨ c = '\n' ∨ c = '\r')

/-- Python `str.strip()`: drop leading and trailing whitespace. -/
def py_strip (s : String) : String :=
  String.mk (((s.data.dropWhile is_ws).reverse.dropWhile is_ws).reverse)

/-- Is the value a Python `float`?  Used to state type-preservation facts. -/
def PyVal.isFloat : PyVal → Bool
  | .float _ => true
  | _ => false

/-! ### Constants catalog

`constants.py` is not among the supplied sources; the HTTP status values are
the standard codes the spec names (200, 400, 429, 500, 503) and the catalog
error texts are taken from the spec's wording.  Only the identity of each
catalog text, never its exact wording, is observable in the claims. -/

/-- HTTP 200, from the constants catalog. -/
def HTTP_OK : Nat := 200

/-- HTTP 400, from the constants catalog. -/
def HTTP_BAD_REQUEST : Nat := 400

/-- HTTP 429, from the constants catalog. -/
def HTTP_TOO_MANY_REQUESTS : Nat := 429

/-- HTTP 500, from the constants catalog. -/
def HTTP_INTERNAL_SERVER_ERROR : Nat := 500

/-- HTTP 503, from the constants catalog. -/
def HTTP_SERVICE_UNAVAILABLE : Nat := 503

/-- Modelled from the spec: the empty-message catalog text (`constants.py` is
not among the supplied sources). -/
def ERROR_EMPTY_MESSAGE : String := "empty message"

/-- Modelled from the spec: the invalid-API-key catalog text. -/
def ERROR_INVALID_API_KEY : String := "invalid API key"

/-- Modelled from the spec: the rate-limit catalog text. -/
def ERROR_RATE_LIMIT : String := "rate limit exceeded"

/-- Modelled from the spec: the connection-failure catalog text. -/
def ERROR_CONNECTION : String := "could not connect to the provider"

/-- Modelled from the spec: the API-key-not-set catalog text raised by the
client constructor. -/
def ERROR_API_KEY_NOT_SET : String := "API key not set"

/-- Default `max_tokens` (`MAX_TOKENS = 1024`, fixed by the spec). -/
def MAX_TOKENS : Int := 1024

/-- The generation model identifier named by the spec. -/
def CLAUDE_MODEL : String := "claude-sonnet-4-20250514"

/-- The `default` output format name. -/
def OUTPUT_FORMAT_DEFAULT : String := "default"

/-- The `json` output format name. -/
def OUTPUT_FORMAT_JSON : String := "json"

/-- The `xml` output format name. -/
def OUTPUT_FORMAT_XML : String := "xml"

/-- Modelled from the spec: the documented end-of-specification marker used as
the single stop sequence in spec mode (the final `prompts.py` defining
`SPEC_END_MARKER` is not among the supplied sources). -/
def SPEC_END_MARKER : String := "END_OF_SPECIFICATION"

/-! ### Prompt template engine

The final `prompts.py` (defining `get_system_prompt` and `get_user_message`)
is not among the supplied sources — the supplied `prompts.py` is an earlier
iteration.  Both functions are modelled from spec §4.3. -/

/-- Modelled from the spec: the base system instruction text. -/
def BASE_SYSTEM_PROMPT : String :=
  "You are a helpful assistant. Answer the user question concisely and to the point."

/-- Modelled from the spec: the strict-format directive appended for `json`. -/
def JSON_FORMAT_DIRECTIVE : String :=
  " Respond with a single JSON object with fields answer and steps and nothing outside it."

/-- Modelled from the spec: the strict-format directive appended for `xml`. -/
def XML_FORMAT_DIRECTIVE : String :=
  " Respond with a single response XML document with answer and steps elements and nothing outside it."

/-- The unsupported-format error message (the supplied earlier-iteration
`prompts.py` raises `ValueError` with this text). -/
def ERROR_UNSUPPORTED_FORMAT : String := "Неподдерживаемый формат вывода"

/-- Modelled from the spec: `get_system_prompt(output_format, spec_mode)`
(§4.3).  The instruction text depends only on `output_format`; per the spec,
`spec_mode` does not change the instruction text itself (spec mode is realised
by a stop sequence attached by the caller instead).  An unrecognized format
raises `ValueError`, modelled as `Except.error`.  `count_tokens` passes the
raw, unvalidated JSON values through, so both parameters are `PyVal`. -/
def get_system_prompt (output_format : PyVal) (_spec_mode : PyVal) : Except String String :=
  if output_format = .str OUTPUT_FORMAT_JSON then
    .ok (BASE_SYSTEM_PROMPT ++ JSON_FORMAT_DIRECTIVE)
  else if output_format = .str OUTPUT_FORMAT_XML then
    .ok (BASE_SYSTEM_PROMPT ++ XML_FORMAT_DIRECTIVE)
  else if output_format = .str OUTPUT_FORMAT_DEFAULT then
    .ok BASE_SYSTEM_PROMPT
  else
    .error ERROR_UNSUPPORTED_FORMAT

/-- Modelled from the spec: `get_user_message` trims surrounding whitespace and
performs no other transformation (§4.3). -/
def get_user_message (text : String) : String := py_strip text

/-! ### Messages -/

/-- A message in the upstream request: a dict with definite `role` and
`content` strings. -/
structure Msg where
  role : String
  content : String
deriving Repr, DecidableEq

/-- Provider-reported token usage. -/
structure Usage where
  input_tokens : Nat
  output_tokens : Nat
deriving Repr, DecidableEq

/-- The history filter shared by both message builders (`claude_client.py`
lines 131-137 and `App.py` lines 62-64): keep a turn when
`msg.get('role') in ('user', 'assistant')` and `msg.get('content')` is truthy
(present and non-empty). -/
def turn_ok (t : RawTurn) : Bool :=
  decide (t.role = some "user" ∨ t.role = some "assistant") &&
    (match t.content with
     | some c => decide (c ≠ "")
     | none => false)

/-- Turn a kept history entry into an upstream message
(`{"role": msg['role'], "content": msg['content']}`). -/
def turn_to_msg (t : RawTurn) : Msg := ⟨t.role.getD "", t.content.getD ""⟩

/-- The history loop of both message builders: append each entry passing the
role/content filter, in order. -/
def history_msgs : List RawTurn → List Msg
  | [] => []
  | t :: ts => if turn_ok t then turn_to_msg t :: history_msgs ts else history_msgs ts

/-- `build_messages` (`App.py` lines 50-66): filtered history entries in their
original order, then the new user turn. -/
def build_messages (conversation_history : List RawTurn) (user_message : String) : List Msg :=
  history_msgs conversation_history ++ [⟨"user", user_message⟩]

/-- The inline message-building loop of `ClaudeClient.send_message`
(`claude_client.py` lines 128-143); the `if conversation_history:` guard is
equivalent to looping over the (possibly empty) list. -/
def client_build_messages (conversation_history : List RawTurn) (clean_user_message : String) : List Msg :=
  history_msgs conversation_history ++ [⟨"user", clean_user_message⟩]

/-! ### The LLM client adapter -/

/-- `ClaudeClient.validate_output_format`: membership in
`VALID_OUTPUT_FORMATS`; a non-string value is never a member. -/
def validate_output_format (f : PyVal) : Bool :=
  decide (f = .str OUTPUT_FORMAT_DEFAULT ∨ f = .str OUTPUT_FORMAT_JSON ∨ f = .str OUTPUT_FORMAT_XML)

/-- The unrecognized-format fallback at the top of `send_message`
(`claude_client.py` lines 113-115). -/
def format_fallback (f : PyVal) : PyVal :=
  if validate_output_format f then f else .str OUTPUT_FORMAT_DEFAULT

/-- The outcome of the remote call `self.client.messages.create(**api_params)`:
either a successful provider message (first content block text plus usage
counts) or one of the exception kinds caught by `send_message`.  Each error
constructor carries the raw exception detail `str(e)`. -/
inductive ProviderOutcome where
  | success (reply : String) (input_tokens output_tokens : Nat)
  | authError (detail : String)
  | rateLimitError (detail : String)
  | connectionError (detail : String)
  | apiError (detail : String)
  | otherError (detail : String)
deriving Repr, DecidableEq

/-- The provider request parameters (`api_params`, `claude_client.py` lines
146-155).  `stop_sequences` is `none` when the key is absent. -/
structure ApiParams where
  model : String
  max_tokens : PyVal
  system : String
  messages : List Msg
  temperature : PyVal
  stop_sequences : Option (List String)
deriving Repr, DecidableEq

/-- The `'Ошибка Claude API: '` prefix of the generic API-error message
(`claude_client.py` line 217). -/
def CLAUDE_API_ERROR_PREFIX : String := "Ошибка Claude API: "

/-- The `'Ошибка сервера: '` prefix of the catch-all error message
(`claude_client.py` line 223). -/
def SERVER_ERROR_PREFIX : String := "Ошибка сервера: "

/-- The tuple returned by `send_message`, extended with the `api_params`
actually issued upstream (`sent = none` when the code returns before the
remote call). -/
structure SendResult where
  reply : Option String
  error : Option String
  status : Nat
  usage : Option Usage
  sent : Option ApiParams
deriving Repr, DecidableEq

/-- `ClaudeClient.send_message` (`claude_client.py` lines 82-223).  The remote
call's outcome is the `po` parameter; everything else follows the source:
format fallback, system prompt (early error return on `ValueError`), message
building from the filtered history plus the stripped user message, the
`api_params` dict with `stop_sequences` only in spec mode, and the
exception-to-result mapping of lines 195-223. -/
def send_message (po : ProviderOutcome) (user_message : String) (output_format : PyVal)
    (model : String) (max_tokens : PyVal) (spec_mode : Bool)
    (conversation_history : List RawTurn) (temperature : PyVal) : SendResult :=
  let fmt := format_fallback output_format
  match get_system_prompt fmt (.bool spec_mode) with
  | .error e => ⟨none, some e, HTTP_INTERNAL_SERVER_ERROR, none, none⟩
  | .ok system_prompt =>
    let clean_user_message := get_user_message user_message
    let messages := client_build_messages conversation_history clean_user_message
    let api_params : ApiParams :=
      { model := model, max_tokens := max_tokens, system := system_prompt,
        messages := messages, temperature := temperature,
        stop_sequences := if spec_mode then some [SPEC_END_MARKER] else none }
    match po with
    | .success reply it ot =>
        ⟨some reply, none, HTTP_OK, some ⟨it, ot⟩, some api_params⟩
    | .authError _ =>
        ⟨none, some ERROR_INVALID_API_KEY, HTTP_INTERNAL_SERVER_ERROR, none, some api_params⟩
    | .rateLimitError _ =>
        ⟨none, some ERROR_RATE_LIMIT, HTTP_TOO_MANY_REQUESTS, none, some api_params⟩
    | .connectionError _ =>
        ⟨none, some ERROR_CONNECTION, HTTP_SERVICE_UNAVAILABLE, none, some api_params⟩
    | .apiError d =>
        ⟨none, some (CLAUDE_API_ERROR_PREFIX ++ d), HTTP_INTERNAL_SERVER_ERROR, none, some api_params⟩
    | .otherError d =>
        ⟨none, some (SERVER_ERROR_PREFIX ++ d), HTTP_INTERNAL_SERVER_ERROR, none, some api_params⟩

/-! ### Request validation and parameter normalization (`App.py`) -/

/-- The range-clamping half of `validate_and_clamp` (`App.py` lines 88-93):
`max(min_val, min(max_val, value))`, then `type(value)(clamped)` for numeric
values. -/
def clamp_range (value : PyVal) (min_val max_val : Option PyVal) : PyVal :=
  match min_val, max_val with
  | some lo, some hi =>
    let clamped := pyMax lo (pyMin hi value)
    if py_is_number value then pyCast value clamped else clamped
  | _, _ => value

/-- `validate_and_clamp` (`App.py` lines 69-93): substitute the default when
the `isinstance` check fails, otherwise clamp into the range preserving the
original runtime type. -/
def validate_and_clamp (value default : PyVal) (min_val max_val : Option PyVal)
    (value_type : Option (PyVal → Bool)) : PyVal :=
  match value_type with
  | some check => if check value then clamp_range value min_val max_val else default
  | none => clamp_range value min_val max_val

/-- The JSON body of a `/api/chat` or `/api/count_tokens` request
(`request.get_json() or {}`): each field may be absent. -/
structure ChatData where
  message : Option PyVal := none
  output_format : Option PyVal := none
  max_tokens : Option PyVal := none
  temperature : Option PyVal := none
  spec_mode : Option PyVal := none
  conversation_history : Option PyVal := none
deriving Repr, DecidableEq

/-- `validate_chat_request` (`App.py` lines 102-107):
`not data.get('message', '').strip()`.  Calling `.strip()` on a value that is
not a string raises `AttributeError`, modelled as `Except.error`. -/
def validate_chat_request (data : ChatData) : Except String (Bool × String) :=
  match data.message.getD (.str "") with
  | .str s => if py_strip s = "" then .ok (false, ERROR_EMPTY_MESSAGE) else .ok (true, "")
  | _ => .error "AttributeError"

/-- `user_message = data.get('message', '')` (`App.py` line 138).  On the path
where this is read, validation has already succeeded, so the value is a
string; the non-string default is unreachable. -/
def norm_user_message (data : ChatData) : String :=
  match data.message with
  | some (.str s) => s
  | _ => ""

/-- `output_format = data.get('output_format', 'default')` (`App.py` line 139). -/
def norm_output_format (data : ChatData) : PyVal :=
  data.output_format.getD (.str OUTPUT_FORMAT_DEFAULT)

/-- `max_tokens = validate_and_clamp(data.get('max_tokens', MAX_TOKENS), MAX_TOKENS, 128, 4096, int)`
(`App.py` line 140). -/
def norm_max_tokens (data : ChatData) : PyVal :=
  validate_and_clamp (data.max_tokens.getD (.int MAX_TOKENS)) (.int MAX_TOKENS)
    (some (.int 128)) (some (.int 4096)) (some py_is_int)

/-- `temperature = validate_and_clamp(data.get('temperature', 1.0), 1.0, 0.0, 1.0, (int, float))`
(`App.py` line 141). -/
def norm_temperature (data : ChatData) : PyVal :=
  validate_and_clamp (data.temperature.getD (.float 1)) (.float 1)
    (some (.float 0)) (some (.float 1)) (some py_is_number)

/-- `spec_mode = data.get('spec_mode', False) if isinstance(data.get('spec_mode'), bool) else False`
(`App.py` line 142). -/
def norm_spec_mode (data : ChatData) : Bool :=
  match data.spec_mode with
  | some (.bool b) => b
  | _ => false

/-- `conversation_history = data.get('conversation_history', []) if isinstance(data.get('conversation_history'), list) else []`
(`App.py` line 143). -/
def norm_history (data : ChatData) : List RawTurn :=
  match data.conversation_history with
  | some (.list ts) => ts
  | _ => []

/-! ### History compressor -/

/-- Modelled from the spec: the `HistoryCompressor` interface
(`history_compression.py` is not among the supplied sources).  Per §4.5,
`should_compress` evaluates the history against a fixed threshold and
`compress_history` returns a new, strictly shorter history; the exact
heuristic is an internal policy, so the component is modelled as a parameter
and theorems assume only the spec's strict-shortening contract. -/
structure HistoryCompressor where
  should_compress : List RawTurn → Bool
  compress_history : List RawTurn → List RawTurn

/-- A concrete instance of the spec-modelled compressor interface, used to
evaluate the model on concrete inputs: compress when the history has more
than two turns, keeping the most recent two. -/
def sampleCompressor : HistoryCompressor :=
  ⟨fun h => decide (2 < h.length), fun h => h.drop (h.length - 2)⟩

/-- The compression step of `chat` (`App.py` lines 147-152): the history used
for the upstream call. -/
def chat_history (comp : HistoryCompressor) (data : ChatData) : List RawTurn :=
  if comp.should_compress (norm_history data) then
    comp.compress_history (norm_history data)
  else
    norm_history data

/-! ### The `/api/chat` handler -/

/-- The `jsonify`-ed body of a `/api/chat` response; `none` means the key is
absent from the JSON object. -/
structure ChatBody where
  reply : Option String := none
  error : Option String := none
  usage : Option Usage := none
  compressed_history : Option (List RawTurn) := none
  compression_applied : Option Bool := none
deriving Repr, DecidableEq

/-- An HTTP response of the chat handler, together with two pieces of
verification-facing trace: whether the adapter was invoked and which
`api_params` (if any) were issued upstream. -/
structure HttpResponse where
  body : ChatBody
  status : Nat
  calledAdapter : Bool
  sent : Option ApiParams
deriving Repr, DecidableEq

/-- What a Flask handler produces: a response, or an exception escaping the
handler (there is no try/except around `chat`). -/
inductive HandlerResult where
  | response (r : HttpResponse)
  | exn (name : String)
deriving Repr, DecidableEq

/-- The adapter call made by `chat` (`App.py` lines 155-162), with all
arguments normalized as in lines 138-143 and the (possibly compressed)
history. -/
def chat_send (comp : HistoryCompressor) (data : ChatData) (po : ProviderOutcome) : SendResult :=
  send_message po (norm_user_message data) (norm_output_format data) CLAUDE_MODEL
    (norm_max_tokens data) (norm_spec_mode data) (chat_history comp data)
    (norm_temperature data)

/-- The response assembly of `chat` (`App.py` lines 131-181) as a function of
the validation outcome, the adapter result, the history used upstream and the
original history length: 400 on invalid input; the adapter's `{error}` body
with the adapter's status on adapter error; otherwise the success body, with
`compressed_history` present exactly when the history length changed. -/
def chat_core (val : Except String (Bool × String)) (r : SendResult)
    (hc : List RawTurn) (origLen : Nat) : HandlerResult :=
  match val with
  | .error e => .exn e
  | .ok (false, errMsg) =>
    .response ⟨{ error := some errMsg }, HTTP_BAD_REQUEST, false, none⟩
  | .ok (true, _) =>
    match r.error with
    | some errText => .response ⟨{ error := some errText }, r.status, true, r.sent⟩
    | none =>
      let changed := hc.length != origLen
      .response ⟨{ reply := r.reply, usage := r.usage,
                   compressed_history := if changed then some hc else none,
                   compression_applied := some changed }, HTTP_OK, true, r.sent⟩

/-- The `/api/chat` handler (`App.py` lines 110-181), as a function of the
request body and the provider outcome. -/
def chat (comp : HistoryCompressor) (data : ChatData) (po : ProviderOutcome) : HandlerResult :=
  chat_core (validate_chat_request data) (chat_send comp data po)
    (chat_history comp data) (norm_history data).length

/-! ### The `/api/count_tokens` handler -/

/-- The body of a `/api/count_tokens` response. -/
structure CountBody where
  input_tokens : Option Nat := none
  error : Option String := none
deriving Repr, DecidableEq

/-- A `/api/count_tokens` response: body and status (this handler wraps its
whole body in try/except, so no exception escapes it). -/
structure CountResult where
  body : CountBody
  status : Nat
deriving Repr, DecidableEq

/-- The `/api/count_tokens` handler (`App.py` lines 184-213).  The token
counter itself (`token_counter.py`, not among the supplied sources) is the
`tc` parameter; its failure is the counting-error path returned verbatim with
500.  Note the handler passes `spec_mode` and `output_format` through raw
(no bool check, no format fallback), and a non-string `message` raises inside
the try block, caught and returned as a 500 error. -/
def count_tokens (tc : String → List Msg → Except String Nat) (data : ChatData) : CountResult :=
  match data.message.getD (.str "") with
  | .str s =>
    let user_message := py_strip s
    if user_message = "" then
      ⟨{ error := some ERROR_EMPTY_MESSAGE }, HTTP_BAD_REQUEST⟩
    else
      let output_format := data.output_format.getD (.str OUTPUT_FORMAT_DEFAULT)
      let spec_mode := data.spec_mode.getD (.bool false)
      let conversation_history :=
        match data.conversation_history.getD .none with
        | .list ts => ts
        | _ => []
      match get_system_prompt output_format spec_mode with
      | .error e => ⟨{ error := some e }, HTTP_INTERNAL_SERVER_ERROR⟩
      | .ok system_prompt =>
        match tc system_prompt (build_messages conversation_history user_message) with
        | .ok n => ⟨{ input_tokens := some n }, HTTP_OK⟩
        | .error e => ⟨{ error := some e }, HTTP_INTERNAL_SERVER_ERROR⟩
  | _ => ⟨{ error := some "AttributeError" }, HTTP_INTERNAL_SERVER_ERROR⟩

/-! ### The client constructor and the health endpoint -/

/-- Python truthiness of an optional string: `None` and `''` are falsy. -/
def py_truthy_str (o : Option String) : Bool :=
  match o with
  | some s => decide (s ≠ "")
  | none => false

/-- The `ClaudeClient` state: the stored `api_key` attribute (assigned once in
the constructor and never mutated by any method). -/
structure ClaudeClient where
  api_key : Option String
deriving Repr, DecidableEq

/-- `ClaudeClient.__init__` (`claude_client.py` lines 45-68):
`self.api_key = api_key or os.environ.get("ANTHROPIC_API_KEY")`, then
`raise ValueError(ERROR_API_KEY_NOT_SET)` when the stored key is falsy.  The
`Anthropic(...)` library construction (which merely re-raises on failure) is
outside the model. -/
def claude_client_init (api_key env_key : Option String) : Except String ClaudeClient :=
  let key := if py_truthy_str api_key then api_key else env_key
  if py_truthy_str key then .ok ⟨key⟩ else .error ERROR_API_KEY_NOT_SET

/-- `ClaudeClient.is_api_key_configured` (`claude_client.py` lines 225-226):
`bool(self.api_key)`. -/
def ClaudeClient.is_api_key_configured (c : ClaudeClient) : Bool :=
  py_truthy_str c.api_key

/-- The `/health` response body. -/
structure HealthBody where
  status : String
  timestamp : String
  api_key_configured : Bool
deriving Repr, DecidableEq

/-- The `/health` handler (`App.py` lines 216-227).  `is_api_key_configured`
is total, so the except branch is unreachable and the handler always returns
the ok body with 200; the timestamp is a parameter. -/
def health (c : ClaudeClient) (ts : String) : HealthBody × Nat :=
  ({ status := "ok", timestamp := ts, api_key_configured := c.is_api_key_configured }, HTTP_OK)

/-! ### Supporting lemmas -/

/-- The system prompt produced for a format that went through the fallback. -/
def fallback_prompt (f : PyVal) : String :=
  if f = .str OUTPUT_FORMAT_JSON then BASE_SYSTEM_PROMPT ++ JSON_FORMAT_DIRECTIVE
  else if f = .str OUTPUT_FORMAT_XML then BASE_SYSTEM_PROMPT ++ XML_FORMAT_DIRECTIVE
  else BASE_SYSTEM_PROMPT

lemma gsp_fallback (f sm : PyVal) :
    get_system_prompt (format_fallback f) sm = Except.ok (fallback_prompt f) := by
  unfold format_fallback
  by_cases hv : validate_output_format f = true
  · have hv' := hv
    unfold validate_output_format at hv'
    rw [decide_eq_true_eq] at hv'
    rw [if_pos hv]
    rcases hv' with h | h | h <;> rw [h] <;> rfl
  · rw [if_neg hv]
    have hv' : ¬(f = .str OUTPUT_FORMAT_DEFAULT ∨ f = .str OUTPUT_FORMAT_JSON ∨
        f = .str OUTPUT_FORMAT_XML) := by
      intro hcon
      exact hv (by unfold validate_output_format; exact decide_eq_true hcon)
    push_neg at hv'
    obtain ⟨h1, h2, h3⟩ := hv'
    unfold fallback_prompt
    rw [if_neg h2, if_neg h3]
    rfl

/-- The `api_params` that `send_message` issues upstream, as a function of its
arguments (used to state lemmas about the `sent` trace). -/
def expected_api_params (um : String) (f : PyVal) (mdl : String) (mt : PyVal) (sm : Bool)
    (h : List RawTurn) (t : PyVal) : ApiParams where
  model := mdl
  max_tokens := mt
  system := fallback_prompt f
  messages := client_build_messages h (get_user_message um)
  temperature := t
  stop_sequences := if sm then some [SPEC_END_MARKER] else none

lemma send_message_eq (po : ProviderOutcome) (um : String) (f : PyVal) (mdl : String)
    (mt : PyVal) (sm : Bool) (h : List RawTurn) (t : PyVal) :
    send_message po um f mdl mt sm h t =
      (let ap : ApiParams := expected_api_params um f mdl mt sm h t
      match po with
      | .success reply it ot => ⟨some reply, none, HTTP_OK, some ⟨it, ot⟩, some ap⟩
      | .authError _ =>
          ⟨none, some ERROR_INVALID_API_KEY, HTTP_INTERNAL_SERVER_ERROR, none, some ap⟩
      | .rateLimitError _ =>
          ⟨none, some ERROR_RATE_LIMIT, HTTP_TOO_MANY_REQUESTS, none, some ap⟩
      | .connectionError _ =>
          ⟨none, some ERROR_CONNECTION, HTTP_SERVICE_UNAVAILABLE, none, some ap⟩
      | .apiError d =>
          ⟨none, some (CLAUDE_API_ERROR_PREFIX ++ d), HTTP_INTERNAL_SERVER_ERROR, none, some ap⟩
      | .otherError d =>
          ⟨none, some (SERVER_ERROR_PREFIX ++ d), HTTP_INTERNAL_SERVER_ERROR, none, some ap⟩) := by
  simp only [send_message, gsp_fallback]
  cases po <;> rfl

lemma validate_chat_request_valid (data : ChatData) (s : String)
    (hm : data.message = some (.str s)) (hne : py_strip s ≠ "") :
    validate_chat_request data = Except.ok (true, "") := by
  unfold validate_chat_request
  rw [hm]
  simp [hne]

lemma chat_eq_of_valid (comp : HistoryCompressor) (data : ChatData) (po : ProviderOutcome)
    (s : String) (hm : data.message = some (.str s)) (hne : py_strip s ≠ "") :
    chat comp data po = chat_core (Except.ok (true, "")) (chat_send comp data po)
      (chat_history comp data) (norm_history data).length := by
  unfold chat
  rw [validate_chat_request_valid data s hm hne]

lemma chat_core_adapter_error (r : SendResult) (hc : List RawTurn) (n : Nat) (e : String)
    (he : r.error = some e) :
    chat_core (Except.ok (true, "")) r hc n =
      .response ⟨{ error := some e }, r.status, true, r.sent⟩ := by
  unfold chat_core
  rw [he]

lemma chat_core_adapter_ok (r : SendResult) (hc : List RawTurn) (n : Nat)
    (he : r.error = none) :
    chat_core (Except.ok (true, "")) r hc n =
      .response ⟨{ reply := r.reply, usage := r.usage,
                   compressed_history := if hc.length != n then some hc else none,
                   compression_applied := some (hc.length != n) }, HTTP_OK, true, r.sent⟩ := by
  unfold chat_core
  rw [he]

lemma history_msgs_eq_filter (l : List RawTurn) :
    history_msgs l = (l.filter turn_ok).map turn_to_msg := by
  induction l with
  | nil => rfl
  | cons t ts ih =>
    cases htk : turn_ok t <;> simp [history_msgs, htk, List.filter_cons, ih]

/-! ### Claim theorems -/

/-- C2: for every POST /api/chat request whose `message` field is absent,
empty, or whitespace-only, the response is HTTP 400 with the empty-message
catalog text as the `error`, regardless of every other request field and of
the provider outcome, and the adapter is never invoked. -/
theorem c2_empty_message_rejected (comp : HistoryCompressor) (data : ChatData)
    (po : ProviderOutcome)
    (h : data.message = none ∨ ∃ s, data.message = some (.str s) ∧ py_strip s = "") :
    chat comp data po =
      .response ⟨{ error := some ERROR_EMPTY_MESSAGE }, HTTP_BAD_REQUEST, false, none⟩ := by
  unfold chat
  have hval : validate_chat_request data = Except.ok (false, ERROR_EMPTY_MESSAGE) := by
    unfold validate_chat_request
    rcases h with h | ⟨s, hm, hs⟩
    · rw [h]; rfl
    · rw [hm]; simp [hs]
  rw [hval]
  rfl

/-- Witness for C2 at a concrete whitespace-only request. -/
theorem c2_witness :
    chat sampleCompressor { message := some (.str "  "), temperature := some (.int 7) }
      (.authError "x")
      = .response ⟨{ error := some ERROR_EMPTY_MESSAGE }, HTTP_BAD_REQUEST, false, none⟩ :=
  c2_empty_message_rejected _ _ _ (Or.inr ⟨"  ", rfl, rfl⟩)

/-- C3: the message array sent upstream by `send_message` is exactly the
history entries whose role is user/assistant and whose content is non-empty,
in their original order, immediately followed by the new user turn; the
second conjunct restates the kept-turn test in the claim's vocabulary. -/
theorem c3_upstream_messages (po : ProviderOutcome) (um : String) (f : PyVal) (mdl : String)
    (mt : PyVal) (sm : Bool) (h : List RawTurn) (t : PyVal) :
    ((send_message po um f mdl mt sm h t).sent).map (fun p => p.messages)
        = some ((h.filter turn_ok).map turn_to_msg ++ [⟨"user", get_user_message um⟩])
      ∧ ∀ tn : RawTurn, turn_ok tn = true ↔
        ((tn.role = some "user" ∨ tn.role = some "assistant") ∧
          ∃ c, tn.content = some c ∧ c ≠ "") := by
  constructor
  · rw [send_message_eq]
    cases po <;> simp [expected_api_params, client_build_messages, history_msgs_eq_filter]
  · intro tn
    rcases tn with ⟨r, c⟩
    cases c with
    | none => simp [turn_ok]
    | some c => simp [turn_ok, Bool.and_eq_true, decide_eq_true_eq]

/-- Witness for C3 at a concrete history with a kept turn, a bad-role turn and
an empty-content turn. -/
theorem c3_witness :
    ((send_message (.success "ok" 3 4) " hi " (.str "json") "m" (.int 256) true
        [⟨some "user", some "a"⟩, ⟨some "system", some "b"⟩, ⟨some "assistant", some ""⟩]
        (.float 1)).sent).map (fun p => p.messages)
      = some (([⟨some "user", some "a"⟩, ⟨some "system", some "b"⟩,
          ⟨some "assistant", some ""⟩].filter turn_ok).map turn_to_msg
            ++ [⟨"user", get_user_message " hi "⟩]) :=
  (c3_upstream_messages (.success "ok" 3 4) " hi " (.str "json") "m" (.int 256) true
    [⟨some "user", some "a"⟩, ⟨some "system", some "b"⟩, ⟨some "assistant", some ""⟩]
    (.float 1)).1

/-- C9 (amended): for every /api/chat request whose `message` field is absent
or a string, the handler returns a JSON body, and every non-200 response body
carries an `error` field; but a `message` of non-string type makes
`validate_chat_request` raise an `AttributeError` that escapes the handler
(there is no try/except in `chat`). -/
theorem c9_error_responses :
    (∀ (comp : HistoryCompressor) (data : ChatData) (po : ProviderOutcome),
      (data.message = none ∨ ∃ s, data.message = some (.str s)) →
      ∃ r, chat comp data po = .response r ∧
        (r.status ≠ HTTP_OK → r.body.error.isSome = true))
  ∧ (∀ (comp : HistoryCompressor) (data : ChatData) (po : ProviderOutcome) (v : PyVal),
      data.message = some v → (∀ s, v ≠ .str s) →
      chat comp data po = .exn "AttributeError") := by
  constructor
  · intro comp data po hm
    rcases hm with hm | ⟨s, hm⟩
    · exact ⟨_, c2_empty_message_rejected comp data po (Or.inl hm), fun _ => rfl⟩
    · by_cases hs : py_strip s = ""
      · exact ⟨_, c2_empty_message_rejected comp data po (Or.inr ⟨s, hm, hs⟩), fun _ => rfl⟩
      · rw [chat_eq_of_valid comp data po s hm hs]
        cases he : (chat_send comp data po).error with
        | some e =>
          rw [chat_core_adapter_error _ _ _ _ he]
          exact ⟨_, rfl, fun _ => rfl⟩
        | none =>
          rw [chat_core_adapter_ok _ _ _ he]
          exact ⟨_, rfl, fun hne => absurd rfl hne⟩
  · intro comp data po v hm hv
    unfold chat
    have hval : validate_chat_request data = Except.error "AttributeError" := by
      unfold validate_chat_request
      rw [hm]
      cases v with
      | str s => exact absurd rfl (hv s)
      | none => rfl
      | bool b => rfl
      | int n => rfl
      | float q => rfl
      | list ts => rfl
    rw [hval]
    rfl

/-- Counterexample to C9 as stated: the concrete request whose JSON body has
`message = 42` (a number) does not produce a JSON error body — the
`.strip()` call inside `validate_chat_request` raises an `AttributeError`
that escapes the `chat` handler. -/
theorem c9_counterexample :
    chat sampleCompressor { message := some (.int 42) } (.success "ok" 1 2)
      = .exn "AttributeError" := rfl

/-- Witness for C9 (amended) at concrete inputs: a string-message request gets
a response whose non-200 status comes with an error field, and a bool-typed
message escapes as an exception. -/
theorem c9_witness :
    (∃ r, chat sampleCompressor { message := some (.str "hi") } (.rateLimitError "r")
        = .response r ∧ (r.status ≠ HTTP_OK → r.body.error.isSome = true))
  ∧ chat sampleCompressor { message := some (.bool true) } (.success "ok" 1 2)
      = .exn "AttributeError" :=
  ⟨c9_error_responses.1 _ _ _ (Or.inr ⟨"hi", rfl⟩),
   c9_error_responses.2 _ _ _ _ rfl (fun _ h => PyVal.noConfusion h)⟩

/-- C10: a successfully constructed `ClaudeClient` always reports a configured
API key — the constructor raises when both the explicit key and the
environment variable are absent or empty, and otherwise the stored key is
truthy, so `is_api_key_configured` and the health endpoint's
`api_key_configured` field are `true` (the model is immutable, matching the
source, which never reassigns `self.api_key`). -/
theorem c10_api_key_configured (ak env : Option String) :
    ((ak = none ∨ ak = some "") ∧ (env = none ∨ env = some "") →
      ∀ c, claude_client_init ak env ≠ Except.ok c)
  ∧ (∀ (c : ClaudeClient) (ts : String), claude_client_init ak env = Except.ok c →
      c.is_api_key_configured = true ∧
      health c ts = ({ status := "ok", timestamp := ts, api_key_configured := true },
        HTTP_OK)) := by
  constructor
  · rintro ⟨ha, he⟩ c hc
    have hta : py_truthy_str ak = false := by
      rcases ha with h | h <;> subst h <;> rfl
    have hte : py_truthy_str env = false := by
      rcases he with h | h <;> subst h <;> rfl
    unfold claude_client_init at hc
    simp [hta, hte] at hc
  · intro c ts hc
    rcases c with ⟨key0⟩
    unfold claude_client_init at hc
    cases htk : py_truthy_str (if py_truthy_str ak then ak else env) with
    | false => simp [htk] at hc
    | true =>
      simp [htk] at hc
      subst hc
      unfold health ClaudeClient.is_api_key_configured
      simp [htk]

/-- Witness for C10 at a concrete explicit key. -/
theorem c10_witness :
    claude_client_init (some "sk-test") none = Except.ok ⟨some "sk-test"⟩ ∧
    (ClaudeClient.is_api_key_configured ⟨some "sk-test"⟩ = true ∧
      health ⟨some "sk-test"⟩ "t"
        = ({ status := "ok", timestamp := "t", api_key_configured := true }, HTTP_OK)) :=
  ⟨rfl, (c10_api_key_configured (some "sk-test") none).2 ⟨some "sk-test"⟩ "t" rfl⟩

lemma chat_adapter_error_result (comp : HistoryCompressor) (data : ChatData)
    (po : ProviderOutcome) (s e : String) (st : Nat)
    (hm : data.message = some (.str s)) (hne : py_strip s ≠ "")
    (he : (chat_send comp data po).error = some e)
    (hst : (chat_send comp data po).status = st) :
    chat comp data po = .response ⟨{ error := some e }, st, true, (chat_send comp data po).sent⟩ := by
  rw [chat_eq_of_valid comp data po s hm hne, chat_core_adapter_error _ _ _ _ he, hst]

lemma send_usage_none_of_error (po : ProviderOutcome) (um : String) (f : PyVal) (mdl : String)
    (mt : PyVal) (sm : Bool) (h : List RawTurn) (t : PyVal) (e : String)
    (he : (send_message po um f mdl mt sm h t).error = some e) :
    (send_message po um f mdl mt sm h t).usage = none := by
  rw [send_message_eq] at he ⊢
  cases po <;> simp at he ⊢

/-- C1: each provider failure kind is mapped by `send_message` to its
documented error text and HTTP status — authentication failure to the fixed
invalid-API-key catalog text with 500, rate limiting to the rate-limit catalog
text with 429, connection failure to the connection catalog text with 503, any
other provider API error to a message carrying the raw detail with 500, and
any other unexpected exception to a message carrying the raw detail with
500 — and the HTTP layer returns the adapter's `{error}` body with the
adapter's status code unchanged (final conjunct). -/
theorem c1_provider_error_mapping (comp : HistoryCompressor) (data : ChatData)
    (po : ProviderOutcome) (s : String)
    (hm : data.message = some (.str s)) (hne : py_strip s ≠ "") :
    (∀ d, po = .authError d →
      chat comp data po = .response ⟨{ error := some ERROR_INVALID_API_KEY },
        HTTP_INTERNAL_SERVER_ERROR, true, (chat_send comp data po).sent⟩)
  ∧ (∀ d, po = .rateLimitError d →
      chat comp data po = .response ⟨{ error := some ERROR_RATE_LIMIT },
        HTTP_TOO_MANY_REQUESTS, true, (chat_send comp data po).sent⟩)
  ∧ (∀ d, po = .connectionError d →
      chat comp data po = .response ⟨{ error := some ERROR_CONNECTION },
        HTTP_SERVICE_UNAVAILABLE, true, (chat_send comp data po).sent⟩)
  ∧ (∀ d, po = .apiError d →
      chat comp data po = .response ⟨{ error := some (CLAUDE_API_ERROR_PREFIX ++ d) },
        HTTP_INTERNAL_SERVER_ERROR, true, (chat_send comp data po).sent⟩)
  ∧ (∀ d, po = .otherError d →
      chat comp data po = .response ⟨{ error := some (SERVER_ERROR_PREFIX ++ d) },
        HTTP_INTERNAL_SERVER_ERROR, true, (chat_send comp data po).sent⟩)
  ∧ (∀ e, (chat_send comp data po).error = some e →
      chat comp data po = .response ⟨{ error := some e }, (chat_send comp data po).status,
        true, (chat_send comp data po).sent⟩) := by
  refine ⟨?_, ?_, ?_, ?_, ?_, ?_⟩
  · intro d hpo
    subst hpo
    exact chat_adapter_error_result comp data _ s _ _ hm hne
      (by unfold chat_send; rw [send_message_eq]) (by unfold chat_send; rw [send_message_eq])
  · intro d hpo
    subst hpo
    exact chat_adapter_error_result comp data _ s _ _ hm hne
      (by unfold chat_send; rw [send_message_eq]) (by unfold chat_send; rw [send_message_eq])
  · intro d hpo
    subst hpo
    exact chat_adapter_error_result comp data _ s _ _ hm hne
      (by unfold chat_send; rw [send_message_eq]) (by unfold chat_send; rw [send_message_eq])
  · intro d hpo
    subst hpo
    exact chat_adapter_error_result comp data _ s _ _ hm hne
      (by unfold chat_send; rw [send_message_eq]) (by unfold chat_send; rw [send_message_eq])
  · intro d hpo
    subst hpo
    exact chat_adapter_error_result comp data _ s _ _ hm hne
      (by unfold chat_send; rw [send_message_eq]) (by unfold chat_send; rw [send_message_eq])
  · intro e he
    exact chat_adapter_error_result comp data po s e _ hm hne he rfl

/-- Witness for C1 at a concrete request and a concrete generic API error. -/
theorem c1_witness :
    chat sampleCompressor { message := some (.str "hi") } (.apiError "boom")
      = .response ⟨{ error := some (CLAUDE_API_ERROR_PREFIX ++ "boom") },
          HTTP_INTERNAL_SERVER_ERROR, true,
          (chat_send sampleCompressor { message := some (.str "hi") } (.apiError "boom")).sent⟩ :=
  (c1_provider_error_mapping sampleCompressor { message := some (.str "hi") }
    (.apiError "boom") "hi" rfl (by decide)).2.2.2.1 "boom" rfl

/-- C7: `send_message` returns a usage record if and only if the provider call
succeeded (every error return carries `usage = None`), and the HTTP layer
includes the `usage` field exactly when the adapter supplied one; when the
adapter is never reached (invalid message), the body carries no usage. -/
theorem c7_usage_iff_success :
    (∀ (po : ProviderOutcome) (um : String) (f : PyVal) (mdl : String) (mt : PyVal)
        (sm : Bool) (h : List RawTurn) (t : PyVal),
      ((send_message po um f mdl mt sm h t).usage.isSome = true ↔
        ∃ rep it ot, po = .success rep it ot)
      ∧ ((send_message po um f mdl mt sm h t).error = none ↔
        (send_message po um f mdl mt sm h t).usage.isSome = true))
  ∧ (∀ (comp : HistoryCompressor) (data : ChatData) (po : ProviderOutcome) (s : String)
        (r : HttpResponse), data.message = some (.str s) → py_strip s ≠ "" →
      chat comp data po = .response r → r.body.usage = (chat_send comp data po).usage)
  ∧ (∀ (comp : HistoryCompressor) (data : ChatData) (po : ProviderOutcome) (r : HttpResponse),
      (data.message = none ∨ ∃ s, data.message = some (.str s) ∧ py_strip s = "") →
      chat comp data po = .response r → r.body.usage = none) := by
  refine ⟨?_, ?_, ?_⟩
  · intro po um f mdl mt sm h t
    cases po <;> simp [send_message_eq]
  · intro comp data po s r hm hne hr
    rw [chat_eq_of_valid comp data po s hm hne] at hr
    cases he : (chat_send comp data po).error with
    | some e =>
      rw [chat_core_adapter_error _ _ _ _ he] at hr
      injection hr with hr
      subst hr
      exact (send_usage_none_of_error _ _ _ _ _ _ _ _ _ he).symm
    | none =>
      rw [chat_core_adapter_ok _ _ _ he] at hr
      injection hr with hr
      subst hr
      rfl
  · intro comp data po r hm hr
    have hval : validate_chat_request data = Except.ok (false, ERROR_EMPTY_MESSAGE) := by
      unfold validate_chat_request
      rcases hm with h | ⟨s, hmm, hs⟩
      · rw [h]; rfl
      · rw [hmm]; simp [hs]
    unfold chat at hr
    rw [hval] at hr
    injection hr with hr
    subst hr
    rfl

/-- Witness for C7 at concrete inputs: an auth failure (usage absent on both
layers), a success (usage present), and an empty-message request. -/
theorem c7_witness :
    (((send_message (.authError "d") "hi" (.str "default") "m" (.int 1024) false [] (.float 1)).usage.isSome
        = true ↔ ∃ rep it ot, ProviderOutcome.authError "d" = .success rep it ot)
      ∧ ((send_message (.authError "d") "hi" (.str "default") "m" (.int 1024) false [] (.float 1)).error
          = none ↔
        (send_message (.authError "d") "hi" (.str "default") "m" (.int 1024) false [] (.float 1)).usage.isSome
          = true))
  ∧ ((⟨{ error := some ERROR_INVALID_API_KEY }, HTTP_INTERNAL_SERVER_ERROR, true,
        (chat_send sampleCompressor { message := some (.str "hi") } (.authError "d")).sent⟩ :
      HttpResponse).body.usage
      = (chat_send sampleCompressor { message := some (.str "hi") } (.authError "d")).usage)
  ∧ ((⟨{ error := some ERROR_EMPTY_MESSAGE }, HTTP_BAD_REQUEST, false, none⟩ :
      HttpResponse).body.usage = none) :=
  ⟨c7_usage_iff_success.1 (.authError "d") "hi" (.str "default") "m" (.int 1024) false [] (.float 1),
   c7_usage_iff_success.2.1 sampleCompressor { message := some (.str "hi") } (.authError "d") "hi"
     _ rfl (by decide) rfl,
   c7_usage_iff_success.2.2 sampleCompressor { message := some (.str " ") } (.authError "d")
     _ (Or.inr ⟨" ", rfl, rfl⟩) rfl⟩

lemma ratTrunc_intCast (m : Int) : ratTrunc (m : Rat) = m := by
  unfold ratTrunc
  split_ifs with h
  · rw [← Int.cast_neg, Int.floor_intCast]
    omega
  · exact Int.floor_intCast m

lemma ratTrunc_zero : ratTrunc 0 = 0 := by
  unfold ratTrunc
  rw [if_neg (by norm_num)]
  exact Int.floor_zero

lemma ratTrunc_one : ratTrunc 1 = 1 := by
  unfold ratTrunc
  rw [if_neg (by norm_num)]
  exact Int.floor_one

lemma clamp_int_range (n lo hi : Int) :
    pyMax (.int lo) (pyMin (.int hi) (.int n)) = .int (max lo (min hi n)) := by
  simp only [pyMax, pyMin, pyToRat]
  split_ifs with h1 h2 h3 <;> rw [Int.cast_lt] at * <;> congr 1 <;> omega

/-- C4 (amended): a `max_tokens` of Python int type is clamped into
[128, 4096] preserving the int type; a `max_tokens` of bool type — which
Python's `isinstance(value, int)` accepts, since `bool` is a subclass of
`int` — is clamped and then cast back through `bool(...)`, so the adapter
receives `True` (numerically 1); every non-integer-typed value and an absent
field yield the default 1024; and the adapter receives exactly the
normalized value. -/
theorem c4_max_tokens_normalization :
    (∀ (data : ChatData) (n : Int), data.max_tokens = some (.int n) →
      norm_max_tokens data = .int (max 128 (min 4096 n)) ∧
      (128 : Int) ≤ max 128 (min 4096 n) ∧ max 128 (min 4096 n) ≤ 4096)
  ∧ (∀ (data : ChatData) (b : Bool), data.max_tokens = some (.bool b) →
      norm_max_tokens data = .bool true)
  ∧ (∀ (data : ChatData) (v : PyVal), data.max_tokens = some v → py_is_int v = false →
      norm_max_tokens data = .int MAX_TOKENS)
  ∧ (∀ data : ChatData, data.max_tokens = none → norm_max_tokens data = .int MAX_TOKENS)
  ∧ (∀ (comp : HistoryCompressor) (data : ChatData) (po : ProviderOutcome),
      ((chat_send comp data po).sent).map (fun p => p.max_tokens)
        = some (norm_max_tokens data)) := by
  refine ⟨?_, ?_, ?_, ?_, ?_⟩
  · intro data n hm
    unfold norm_max_tokens validate_and_clamp clamp_range
    rw [hm]
    simp only [Option.getD_some, py_is_int, if_true, py_is_number, clamp_int_range, pyCast,
      pyToRat]
    refine ⟨?_, ?_, ?_⟩
    · congr 1
      exact ratTrunc_intCast _
    · exact le_max_left _ _
    · rw [max_le_iff]
      constructor
      · omega
      · exact le_trans (min_le_left _ _) (by omega)
  · intro data b hm
    unfold norm_max_tokens validate_and_clamp clamp_range
    rw [hm]
    cases b <;> decide
  · intro data v hm hv
    unfold norm_max_tokens validate_and_clamp
    rw [hm]
    simp [hv]
  · intro data hm
    unfold norm_max_tokens validate_and_clamp clamp_range
    rw [hm]
    decide
  · intro comp data po
    unfold chat_send
    rw [send_message_eq]
    cases po <;> rfl

/-- Counterexample to C4 as stated: for the concrete request with
`max_tokens = true` (a JSON boolean, which Python's integer-type check
accepts), the value delivered to the adapter is `True` — numerically 1, so
neither clamped into [128, 4096] nor equal to the default 1024. -/
theorem c4_counterexample :
    ((chat_send sampleCompressor
        { message := some (.str "hi"), max_tokens := some (.bool true) }
        (.success "ok" 1 2)).sent).map (fun p => p.max_tokens) = some (.bool true)
  ∧ pyToRat (.bool true) < 128
  ∧ PyVal.bool true ≠ PyVal.int MAX_TOKENS :=
  ⟨rfl, by decide, by decide⟩

/-- Witness for C4 (amended) at concrete inputs: an out-of-range int, a bool,
a string, and an absent field. -/
theorem c4_witness :
    (norm_max_tokens { max_tokens := some (.int 100000) }
        = .int (max 128 (min 4096 (100000 : Int))) ∧
      (128 : Int) ≤ max 128 (min 4096 (100000 : Int)) ∧
      max 128 (min 4096 (100000 : Int)) ≤ 4096)
  ∧ norm_max_tokens { max_tokens := some (.bool false) } = .bool true
  ∧ norm_max_tokens { max_tokens := some (.str "big") } = .int MAX_TOKENS
  ∧ norm_max_tokens {} = .int MAX_TOKENS :=
  ⟨c4_max_tokens_normalization.1 { max_tokens := some (.int 100000) } 100000 rfl,
   c4_max_tokens_normalization.2.1 { max_tokens := some (.bool false) } false rfl,
   c4_max_tokens_normalization.2.2.1 { max_tokens := some (.str "big") } (.str "big") rfl rfl,
   c4_max_tokens_normalization.2.2.2.1 {} rfl⟩

lemma clamp_temp_int (n : Int) :
    pyCast (.int n) (pyMax (.float 0) (pyMin (.float 1) (.int n)))
      = .int (max 0 (min 1 n)) := by
  simp only [pyMin, pyToRat]
  by_cases h1 : (n : Rat) < 1
  · rw [if_pos h1]
    have hn1 : n ≤ 0 := by
      have : n < 1 := by exact_mod_cast h1
      omega
    simp only [pyMax, pyToRat]
    rw [if_neg (show ¬(0 : Rat) < (n : Rat) by exact_mod_cast not_lt.mpr hn1)]
    simp only [pyCast, pyToRat, ratTrunc_zero]
    rw [min_eq_right (show n ≤ (1 : Int) by omega), max_eq_left hn1]
  · rw [if_neg h1]
    have hn1 : 1 ≤ n := by
      have : ¬n < 1 := fun hc => h1 (by exact_mod_cast hc)
      omega
    simp only [pyMax, pyToRat]
    rw [if_pos (show (0 : Rat) < 1 by norm_num)]
    simp only [pyCast, pyToRat, ratTrunc_one]
    rw [min_eq_left hn1, max_eq_right (show (0 : Int) ≤ 1 by norm_num)]

/-- C5 (amended): a numeric `temperature` is clamped into [0.0, 1.0], but the
original numeric runtime type is preserved rather than coerced to a real
number — an int input yields the int 0 or 1, a bool input is returned as the
same bool after the cast — while a non-numeric or absent `temperature` yields
the float 1.0; and the adapter receives exactly the normalized value. -/
theorem c5_temperature_normalization :
    (∀ (data : ChatData) (n : Int), data.temperature = some (.int n) →
      norm_temperature data = .int (max 0 (min 1 n)) ∧
      (0 : Int) ≤ max 0 (min 1 n) ∧ max 0 (min 1 n) ≤ 1)
  ∧ (∀ (data : ChatData) (q : Rat), data.temperature = some (.float q) →
      norm_temperature data = .float (max 0 (min 1 q)) ∧
      (0 : Rat) ≤ max 0 (min 1 q) ∧ max 0 (min 1 q) ≤ 1)
  ∧ (∀ (data : ChatData) (b : Bool), data.temperature = some (.bool b) →
      norm_temperature data = .bool b)
  ∧ (∀ (data : ChatData) (v : PyVal), data.temperature = some v → py_is_number v = false →
      norm_temperature data = .float 1)
  ∧ (∀ data : ChatData, data.temperature = none → norm_temperature data = .float 1)
  ∧ (∀ (comp : HistoryCompressor) (data : ChatData) (po : ProviderOutcome),
      ((chat_send comp data po).sent).map (fun p => p.temperature)
        = some (norm_temperature data)) := by
  refine ⟨?_, ?_, ?_, ?_, ?_, ?_⟩
  · intro data n hm
    unfold norm_temperature validate_and_clamp clamp_range
    rw [hm]
    simp only [Option.getD_some, py_is_number, if_true]
    refine ⟨clamp_temp_int n, le_max_left _ _, ?_⟩
    rw [max_le_iff]
    exact ⟨by omega, min_le_left _ _⟩
  · intro data q hm
    unfold norm_temperature validate_and_clamp clamp_range
    rw [hm]
    simp only [Option.getD_some, py_is_number, if_true]
    simp only [pyMin, pyToRat]
    by_cases h1 : q < 1
    · rw [if_pos h1]
      simp only [pyMax, pyToRat]
      by_cases h2 : (0 : Rat) < q
      · rw [if_pos h2]
        simp only [pyCast, pyToRat]
        refine ⟨?_, le_max_left _ _, ?_⟩
        · rw [min_eq_right (le_of_lt h1), max_eq_right (le_of_lt h2)]
        · rw [max_le_iff]
          exact ⟨by norm_num, min_le_left _ _⟩
      · rw [if_neg h2]
        push_neg at h2
        simp only [pyCast, pyToRat]
        refine ⟨?_, le_max_left _ _, ?_⟩
        · rw [max_eq_left (le_trans (min_le_right _ _) h2)]
        · rw [max_le_iff]
          exact ⟨by norm_num, min_le_left _ _⟩
    · rw [if_neg h1]
      push_neg at h1
      simp only [pyMax, pyToRat]
      rw [if_pos (show (0 : Rat) < 1 by norm_num)]
      simp only [pyCast, pyToRat]
      refine ⟨?_, le_max_left _ _, ?_⟩
      · rw [min_eq_left h1, max_eq_right (show (0 : Rat) ≤ 1 by norm_num)]
      · rw [max_le_iff]
        exact ⟨by norm_num, min_le_left _ _⟩
  · intro data b hm
    unfold norm_temperature validate_and_clamp clamp_range
    rw [hm]
    cases b <;> decide
  · intro data v hm hv
    unfold norm_temperature validate_and_clamp
    rw [hm]
    simp [hv]
  · intro data hm
    unfold norm_temperature validate_and_clamp clamp_range
    rw [hm]
    decide
  · intro comp data po
    unfold chat_send
    rw [send_message_eq]
    cases po <;> rfl

/-- Counterexample to C5 as stated: for the concrete request with
`temperature = -5` (an int — the spec's own example), the adapter receives
the int 0 (because `type(value)(clamped)` preserves the int type), not a
value of Python float type, contradicting the claimed coercion to a real
number. -/
theorem c5_counterexample :
    ((chat_send sampleCompressor
        { message := some (.str "hi"), temperature := some (.int (-5)) }
        (.success "ok" 1 2)).sent).map (fun p => p.temperature) = some (.int 0)
  ∧ (PyVal.int 0).isFloat = false :=
  ⟨rfl, rfl⟩

/-- Witness for C5 (amended) at concrete inputs: an out-of-range int, an
out-of-range float, a bool, a string, and an absent field. -/
theorem c5_witness :
    norm_temperature { temperature := some (.int (-5)) } = .int (max 0 (min 1 (-5)))
  ∧ norm_temperature { temperature := some (.float (37/10)) } = .float (max 0 (min 1 (37/10)))
  ∧ norm_temperature { temperature := some (.bool true) } = .bool true
  ∧ norm_temperature { temperature := some (.str "hot") } = .float 1
  ∧ norm_temperature {} = .float 1 :=
  ⟨(c5_temperature_normalization.1 { temperature := some (.int (-5)) } (-5) rfl).1,
   (c5_temperature_normalization.2.1 { temperature := some (.float (37/10)) } (37/10) rfl).1,
   c5_temperature_normalization.2.2.1 { temperature := some (.bool true) } true rfl,
   c5_temperature_normalization.2.2.2.1 { temperature := some (.str "hot") } (.str "hot") rfl rfl,
   c5_temperature_normalization.2.2.2.2.1 {} rfl⟩

lemma norm_user_message_eq (data : ChatData) (s : String)
    (hm : data.message = some (.str s)) : norm_user_message data = s := by
  unfold norm_user_message
  rw [hm]

/-- C6 (amended): for every chat request with a valid message, writing `h` for
the normalized input history — when `should_compress h` is false the history
used upstream is exactly `h` and a successful response carries
`compression_applied = false` with no `compressed_history` key; when
`should_compress h` is true, `compress_history h` is used upstream and (given
the spec's contract that compression strictly shortens, supplied as a
hypothesis since `history_compression.py` is not among the sources) a
successful response carries `compressed_history = compress_history h` with
strictly fewer turns and `compression_applied = true`.  Adapter-error
responses carry no compression fields (see the counterexample). -/
theorem c6_compression (comp : HistoryCompressor) (data : ChatData) (po : ProviderOutcome)
    (s : String) (hm : data.message = some (.str s)) (hne : py_strip s ≠ "") :
    (comp.should_compress (norm_history data) = false →
      chat_history comp data = norm_history data ∧
      ((chat_send comp data po).sent).map (fun p => p.messages)
        = some (client_build_messages (norm_history data) (get_user_message s)) ∧
      (∀ rep it ot, po = .success rep it ot →
        chat comp data po = .response ⟨{ reply := some rep, usage := some ⟨it, ot⟩, compression_applied := some false }, HTTP_OK, true, (chat_send comp data po).sent⟩))
  ∧ (comp.should_compress (norm_history data) = true →
      (comp.compress_history (norm_history data)).length < (norm_history data).length →
      chat_history comp data = comp.compress_history (norm_history data) ∧
      ((chat_send comp data po).sent).map (fun p => p.messages)
        = some (client_build_messages (comp.compress_history (norm_history data))
            (get_user_message s)) ∧
      (∀ rep it ot, po = .success rep it ot →
        chat comp data po = .response ⟨{ reply := some rep, usage := some ⟨it, ot⟩, compressed_history := some (comp.compress_history (norm_history data)), compression_applied := some true }, HTTP_OK, true, (chat_send comp data po).sent⟩)) := by
  constructor
  · intro hsc
    have hh : chat_history comp data = norm_history data := by
      unfold chat_history
      rw [hsc]
      simp
    refine ⟨hh, ?_, ?_⟩
    · unfold chat_send
      rw [send_message_eq, hh, norm_user_message_eq data s hm]
      cases po <;> rfl
    · intro rep it ot hpo
      subst hpo
      rw [chat_eq_of_valid comp data _ s hm hne]
      have he : (chat_send comp data (.success rep it ot)).error = none := by
        unfold chat_send
        rw [send_message_eq]
      rw [chat_core_adapter_ok _ _ _ he, hh]
      have hrep : (chat_send comp data (.success rep it ot)).reply = some rep := by
        unfold chat_send
        rw [send_message_eq]
      have hus : (chat_send comp data (.success rep it ot)).usage = some ⟨it, ot⟩ := by
        unfold chat_send
        rw [send_message_eq]
      rw [hrep, hus]
      simp
  · intro hsc hlt
    have hh : chat_history comp data = comp.compress_history (norm_history data) := by
      unfold chat_history
      rw [hsc]
      simp
    refine ⟨hh, ?_, ?_⟩
    · unfold chat_send
      rw [send_message_eq, hh, norm_user_message_eq data s hm]
      cases po <;> rfl
    · intro rep it ot hpo
      subst hpo
      rw [chat_eq_of_valid comp data _ s hm hne]
      have he : (chat_send comp data (.success rep it ot)).error = none := by
        unfold chat_send
        rw [send_message_eq]
      rw [chat_core_adapter_ok _ _ _ he, hh]
      have hrep : (chat_send comp data (.success rep it ot)).reply = some rep := by
        unfold chat_send
        rw [send_message_eq]
      have hus : (chat_send comp data (.success rep it ot)).usage = some ⟨it, ot⟩ := by
        unfold chat_send
        rw [send_message_eq]
      have hbne : ((comp.compress_history (norm_history data)).length
          != (norm_history data).length) = true :=
        bne_iff_ne.mpr (Nat.ne_of_lt hlt)
      rw [hrep, hus, hbne]
      simp

/-- Counterexample to C6 as stated: at a concrete request whose history has
`should_compress = false` but whose provider call fails authentication, the
response body is the bare adapter error object — it carries no
`compression_applied` key at all (the field is `none`), rather than
`compression_applied = false` as the claim requires of every chat request. -/
theorem c6_counterexample :
    sampleCompressor.should_compress (norm_history { message := some (.str "hi") }) = false
  ∧ chat sampleCompressor { message := some (.str "hi") } (.authError "x")
      = .response ⟨{ error := some ERROR_INVALID_API_KEY }, HTTP_INTERNAL_SERVER_ERROR, true,
          (chat_send sampleCompressor { message := some (.str "hi") } (.authError "x")).sent⟩
  ∧ ({ error := some ERROR_INVALID_API_KEY } : ChatBody).compression_applied = none :=
  ⟨rfl, rfl, rfl⟩

/-- A concrete three-turn history used to evaluate the compression path. -/
def c6_history : List RawTurn :=
  [⟨some "user", some "a"⟩, ⟨some "assistant", some "b"⟩, ⟨some "user", some "c"⟩]

/-- A concrete chat request carrying `c6_history`. -/
def c6_data : ChatData :=
  { message := some (.str "hi"), conversation_history := some (.list c6_history) }

/-- Witness for C6 (amended) at a concrete three-turn history that the sample
compressor compresses to its last two turns, with a successful provider
call. -/
theorem c6_witness :
    sampleCompressor.should_compress (norm_history c6_data) = true
  ∧ (sampleCompressor.compress_history (norm_history c6_data)).length
      < (norm_history c6_data).length
  ∧ chat sampleCompressor c6_data (.success "ok" 1 2)
      = .response ⟨{ reply := some "ok", usage := some ⟨1, 2⟩, compressed_history := some (sampleCompressor.compress_history (norm_history c6_data)), compression_applied := some true }, HTTP_OK, true, (chat_send sampleCompressor c6_data (.success "ok" 1 2)).sent⟩ :=
  ⟨by decide, by decide,
   ((c6_compression sampleCompressor c6_data (.success "ok" 1 2) "hi" rfl (by decide)).2
     (by decide) (by decide)).2.2 "ok" 1 2 rfl⟩

lemma get_system_prompt_ignores_spec_mode (f a b : PyVal) :
    get_system_prompt f a = get_system_prompt f b := rfl

/-- C8: on `/api/chat` a non-boolean `spec_mode` is normalized to `false`
(the handler behaves exactly as with `spec_mode = false`); on
`/api/count_tokens` the raw value is passed through but the system prompt
does not depend on it, so the endpoint likewise behaves exactly as with
`spec_mode = false`; and the upstream request carries exactly one stop
sequence — the end-of-specification marker — when the normalized `spec_mode`
is true, and none otherwise, the normalization being true exactly on the
boolean `true`. -/
theorem c8_spec_mode_handling :
    (∀ (comp : HistoryCompressor) (data : ChatData) (po : ProviderOutcome) (v : PyVal),
      data.spec_mode = some v → (∀ b, v ≠ .bool b) →
      chat comp data po = chat comp { data with spec_mode := some (.bool false) } po)
  ∧ (∀ (tc : String → List Msg → Except String Nat) (data : ChatData) (v : PyVal),
      data.spec_mode = some v → (∀ b, v ≠ .bool b) →
      count_tokens tc data = count_tokens tc { data with spec_mode := some (.bool false) })
  ∧ (∀ (comp : HistoryCompressor) (data : ChatData) (po : ProviderOutcome),
      ((chat_send comp data po).sent).map (fun p => p.stop_sequences)
        = some (if norm_spec_mode data then some [SPEC_END_MARKER] else none))
  ∧ (∀ data : ChatData, norm_spec_mode data = true ↔ data.spec_mode = some (.bool true)) := by
  refine ⟨?_, ?_, ?_, ?_⟩
  · intro comp data po v hsm hv
    have hns : norm_spec_mode data = false := by
      unfold norm_spec_mode
      rw [hsm]
      cases v with
      | bool b => exact absurd rfl (hv b)
      | none => rfl
      | int n => rfl
      | float q => rfl
      | str s => rfl
      | list ts => rfl
    unfold chat chat_send chat_history
    rw [hns]
    rfl
  · intro tc data v hsm hv
    rfl
  · intro comp data po
    unfold chat_send
    rw [send_message_eq]
    cases po <;> rfl
  · intro data
    unfold norm_spec_mode
    rcases hd : data.spec_mode with _ | v
    · simp
    · cases v <;> simp

/-- Witness for C8 at concrete inputs: `spec_mode = 1` on chat,
`spec_mode = "yes"` on count_tokens, and a concrete stop-sequence check in
both modes. -/
theorem c8_witness :
    chat sampleCompressor { message := some (.str "m"), spec_mode := some (.int 1) }
        (.success "ok" 1 2)
      = chat sampleCompressor { message := some (.str "m"), spec_mode := some (.bool false) }
        (.success "ok" 1 2)
  ∧ count_tokens (fun _ _ => .ok 5) { message := some (.str "m"), spec_mode := some (.str "yes") }
      = count_tokens (fun _ _ => .ok 5)
        { message := some (.str "m"), spec_mode := some (.bool false) }
  ∧ ((chat_send sampleCompressor { message := some (.str "m"), spec_mode := some (.bool true) }
      (.success "ok" 1 2)).sent).map (fun p => p.stop_sequences)
      = some (if norm_spec_mode { message := some (.str "m"), spec_mode := some (.bool true) }
          then some [SPEC_END_MARKER] else none)
  ∧ (norm_spec_mode { spec_mode := some (.bool true) } = true ↔
      ({ spec_mode := some (.bool true) } : ChatData).spec_mode = some (.bool true)) :=
  ⟨c8_spec_mode_handling.1 sampleCompressor
      { message := some (.str "m"), spec_mode := some (.int 1) } (.success "ok" 1 2) (.int 1)
      rfl (fun _ h => PyVal.noConfusion h),
   c8_spec_mode_handling.2.1 (fun _ _ => .ok 5)
      { message := some (.str "m"), spec_mode := some (.str "yes") } (.str "yes")
      rfl (fun _ h => PyVal.noConfusion h),
   c8_spec_mode_handling.2.2.1 sampleCompressor
      { message := some (.str "m"), spec_mode := some (.bool true) } (.success "ok" 1 2),
   c8_spec_mode_handling.2.2.2 { spec_mode := some (.bool true) }⟩

end ClaudAgentPY
